import Mathlib

/-!
Shallow embedding of `server/realtime-analysis.py` (class `RealtimeAnalyzer`).

Modelling conventions:

* Python `str` is modelled by `String` / `List Char`; `str.lower()` is a
  character-wise lowercase (`Char.toLower`, ASCII letters, matching CPython
  on ASCII input).
* Python `float` durations, thresholds and ratios are modelled by exact
  rationals `ℚ`; numeric literals such as `0.3` are the exact rationals the
  source writes.
* `re.findall(r'\b' + re.escape(term) + r'\b', text)` for the fixed filler
  terms is modelled by `countScan`: a left-to-right scan that counts
  non-overlapping literal occurrences whose neighbouring characters are
  word boundaries.  Every filler term begins and ends with a word character
  (a letter), so `\b` before the term means "previous character is not a
  word character (or start of text)" and `\b` after it means "next
  character is not a word character (or end of text)"; the scan encodes
  exactly that.
* `indicator in text` (Python substring test) is modelled by `containsSub`.
* `datetime.now()` instants are modelled by an explicit `now : ℚ` argument
  to `update_response_tracking`.
-/

namespace DebateApp

/-- Whitespace for Python `str.split()` (ASCII whitespace characters). -/
def isPySpace (c : Char) : Bool :=
  c == ' ' || c == '\t' || c == '\n' || c == '\r' || c == '\x0b' || c == '\x0c'

/-- Word characters of the regex class `\w` (ASCII): letters, digits, `_`. -/
def isWordChar (c : Char) : Bool :=
  c.isAlphanum || c == '_'

/-- `transcript.lower()` — character-wise lowercasing. -/
def lowerList (s : List Char) : List Char :=
  s.map Char.toLower

/-- Accumulator loop for `str.split()`: split on runs of whitespace,
dropping empty tokens.  `acc` is the current token, reversed. -/
def pySplitGo : List Char → List Char → List (List Char)
  | [], acc => if acc.isEmpty then [] else [acc.reverse]
  | c :: rest, acc =>
    if isPySpace c then
      if acc.isEmpty then pySplitGo rest [] else acc.reverse :: pySplitGo rest []
    else
      pySplitGo rest (c :: acc)

/-- Python `s.split()` (no separator argument). -/
def pySplit (s : List Char) : List (List Char) :=
  pySplitGo s []

/-- `len(s.split())` — the whitespace-token word count. -/
def wordCount (s : List Char) : Nat :=
  (pySplit s).length

/-- Does the literal pattern `p` occur at the head of `s`, with a word
boundary immediately after it?  (All filler terms end in a letter, so the
trailing `\b` holds exactly when the next character is not a word
character, or the text ends.) -/
def matchesHere : List Char → List Char → Bool
  | [], [] => true
  | [], c :: _ => !isWordChar c
  | _ :: _, [] => false
  | pc :: pt, sc :: st => pc == sc && matchesHere pt st

/-- Left-to-right scan counting the non-overlapping occurrences of the
literal pattern `p` that are enclosed in word boundaries, as
`re.findall(r'\b' + re.escape(p) + r'\b', s)` does for the filler terms.
`prev` records whether the previous character was a word character (the
leading `\b` of a letter-initial pattern holds exactly when it was not);
`skip` is the number of characters still covered by the last counted
match, inside which no new match may start. -/
def countScan (p : List Char) : Bool → Nat → List Char → Nat
  | _, _, [] => 0
  | _, Nat.succ k, c :: rest => countScan p (isWordChar c) k rest
  | prev, 0, c :: rest =>
    if !prev && matchesHere p (c :: rest) then
      countScan p (isWordChar c) (p.length - 1) rest + 1
    else
      countScan p (isWordChar c) 0 rest

/-- `len(re.findall(r'\b' + re.escape(p) + r'\b', s))`. -/
def countOccurrences (p : List Char) (s : List Char) : Nat :=
  countScan p false 0 s

/-- The fixed filler list of `RealtimeAnalyzer.__init__` (source lines 31-35). -/
def fillerWords : List String :=
  ["um", "uh", "like", "you know", "basically", "actually", "literally",
   "sort of", "kind of", "right", "so", "well", "i mean", "i guess",
   "i think", "i feel", "i believe", "maybe", "perhaps", "probably"]

/-- The filler-counting loop of `analyze_transcript` (source lines 51-53):
sum of the whole-word occurrence counts of every filler term. -/
def countFillers (s : List Char) : Nat :=
  (fillerWords.map (fun f => countOccurrences f.toList s)).sum

/-- Is `p` a literal prefix of `s`? -/
def leadsWith : List Char → List Char → Bool
  | [], _ => true
  | _ :: _, [] => false
  | pc :: pt, sc :: st => pc == sc && leadsWith pt st

/-- Python substring containment `needle in hay`. -/
def containsSub (needle : List Char) : List Char → Bool
  | [] => needle.isEmpty
  | c :: rest => leadsWith needle (c :: rest) || containsSub needle rest

/-- An apostrophe character (several source string literals contain one). -/
def apos : Char := Char.ofNat 39

/-- The apostrophe as a one-character string. -/
def aposS : String := String.mk [apos]

/-- The fixed off-topic indicator phrases (source lines 64-67). -/
def offTopicIndicators : List (List Char) :=
  [ "i don".toList ++ [apos] ++ "t know".toList,
    "i".toList ++ [apos] ++ "m not sure".toList,
    "that".toList ++ [apos] ++ "s a good question".toList,
    "let me think".toList,
    "that".toList ++ [apos] ++ "s interesting".toList,
    "i haven".toList ++ [apos] ++ "t thought about that".toList ]

/-- `any(indicator in text_lower for indicator in off_topic_indicators)`
(source line 69), applied to the lowercased text. -/
def isOffTopic (textLower : List Char) : Bool :=
  offTopicIndicators.any fun ind => containsSub ind textLower

/-- The dataclass `AnalysisResult` (source lines 13-21).  `filler_word_count`
is a Python `int`, modelled by `ℤ` (the analyzer only ever stores the
result of a `len`, hence a non-negative value). -/
structure AnalysisResult where
  is_rambling : Bool := false
  filler_word_count : ℤ := 0
  is_off_topic : Bool := false
  response_duration : ℚ := 0
  should_interrupt : Bool := false
  interruption_reason : String := ""
  current_topic : String := ""
deriving DecidableEq

/-- The configuration carried by a `RealtimeAnalyzer` instance
(source lines 24-28): `debater_role.get('id', 'standard')`,
`debater_role.get('interruptionThreshold', 120)` and
`debater_role.get('fillerWordTolerance', 0.7)`.  Field defaults are the
`get` defaults. -/
structure RealtimeAnalyzer where
  role_id : String := "standard"
  interruption_threshold : ℚ := 120
  filler_word_tolerance : ℚ := 0.7
deriving DecidableEq

/-- `filler_ratio = filler_count / max(len(text_lower.split()), 1)`
(source line 56), over the lowercased text. -/
def fillerRatio (s : List Char) : ℚ :=
  (countFillers (lowerList s) : ℚ) / (max (wordCount (lowerList s)) 1 : ℚ)

/-- `is_rambling = word_count > 100 or duration > self.interruption_threshold`
(source lines 59-60); the word count is taken on the original transcript. -/
def ramblingFlag (a : RealtimeAnalyzer) (transcript : String) (duration : ℚ) : Bool :=
  decide (100 < wordCount transcript.toList) || decide (a.interruption_threshold < duration)

/-- The interruption decision block of `analyze_transcript`
(source lines 72-101): first matching condition wins, and the pair is
`(should_interrupt, interruption_reason)`. -/
def interruptDecision (a : RealtimeAnalyzer) (is_rambling is_off_topic : Bool)
    (filler_ratio duration : ℚ) : Bool × String :=
  if a.role_id == "tough" then
    if is_rambling then (true, "Response too long")
    else if (0.3 : ℚ) < filler_ratio then (true, "Too many filler words")
    else if is_off_topic then (true, "Going off-topic")
    else (false, "")
  else if a.role_id == "friendly" then
    if is_rambling && decide (a.interruption_threshold * 1.5 < duration) then
      (true, "Response getting long")
    else if (0.5 : ℚ) < filler_ratio then (true, "Many filler words")
    else (false, "")
  else
    if is_rambling then (true, "Response too long")
    else if (0.4 : ℚ) < filler_ratio then (true, "Too many filler words")
    else (false, "")

/-- `RealtimeAnalyzer.analyze_transcript` (source lines 42-108). -/
def analyze_transcript (a : RealtimeAnalyzer) (transcript : String) (duration : ℚ) :
    AnalysisResult :=
  { is_rambling := ramblingFlag a transcript duration
    filler_word_count := (countFillers (lowerList transcript.toList) : ℤ)
    is_off_topic := isOffTopic (lowerList transcript.toList)
    response_duration := duration
    should_interrupt :=
      (interruptDecision a (ramblingFlag a transcript duration)
        (isOffTopic (lowerList transcript.toList)) (fillerRatio transcript.toList) duration).1
    interruption_reason :=
      (interruptDecision a (ramblingFlag a transcript duration)
        (isOffTopic (lowerList transcript.toList)) (fillerRatio transcript.toList) duration).2
    current_topic := "" }

/-- `RealtimeAnalyzer.get_interruption_message` (source lines 110-137). -/
def get_interruption_message (a : RealtimeAnalyzer) (reason : String) : String :=
  if a.role_id == "tough" then
    if reason == "Response too long" then
      "I need to interrupt. Your response is getting too long. Please be more concise."
    else if reason == "Too many filler words" then
      "I" ++ aposS ++ "m interrupting because you" ++ aposS ++
        "re using too many filler words. Speak more directly."
    else if reason == "Going off-topic" then
      "You" ++ aposS ++ "re going off-topic. Let" ++ aposS ++
        "s stay focused on the debate question."
    else
      "I need to interrupt. Please be more concise."
  else if a.role_id == "friendly" then
    if reason == "Response getting long" then
      "I" ++ aposS ++ "d like to interject here. Your response is getting quite long."
    else if reason == "Many filler words" then
      "I notice you" ++ aposS ++ "re using many filler words. Try to speak more directly."
    else
      "I" ++ aposS ++ "d like to interject here."
  else
    if reason == "Response too long" then
      "I need to interrupt. Your response is getting too long."
    else if reason == "Too many filler words" then
      "I" ++ aposS ++ "m interrupting because you" ++ aposS ++
        "re using too many filler words."
    else if reason == "Going off-topic" then
      "You" ++ aposS ++ "re going off-topic. Let" ++ aposS ++ "s stay focused."
    else
      "I need to interrupt. Please be more concise."

/-- A `response_history` entry (source lines 154-159); the `isoformat`
timestamp is modelled by the instant itself. -/
structure ResponseRecord where
  text : String
  duration : ℚ
  analysis : AnalysisResult
  timestamp : ℚ
deriving DecidableEq

/-- The mutable response-tracking fields of `RealtimeAnalyzer`
(source lines 38-40). -/
structure TrackingState where
  current_response_start : Option ℚ
  current_response_text : String
  response_history : List ResponseRecord
deriving DecidableEq

/-- `RealtimeAnalyzer.update_response_tracking` (source lines 139-167),
with the two `datetime.now()` calls of one invocation modelled by the
single instant `now`.  Returns the new state and the optional analysis. -/
def update_response_tracking (a : RealtimeAnalyzer) (st : TrackingState)
    (transcript : String) (is_speaking : Bool) (now : ℚ) :
    TrackingState × Option AnalysisResult :=
  if is_speaking && st.current_response_start.isNone then
    ({ st with current_response_start := some now, current_response_text := transcript }, none)
  else if is_speaking then
    ({ st with current_response_text := transcript }, none)
  else
    match st.current_response_start with
    | some t0 =>
      ({ current_response_start := none,
         current_response_text := "",
         response_history := st.response_history ++
           [{ text := st.current_response_text,
              duration := now - t0,
              analysis := analyze_transcript a st.current_response_text (now - t0),
              timestamp := now }] },
       some (analyze_transcript a st.current_response_text (now - t0)))
    | none => (st, none)

/-! Helper lemmas. -/

/-- Lowercasing fixes whitespace characters. -/
theorem toLower_isPySpace (c : Char) (h : isPySpace c = true) : Char.toLower c = c := by
  simp only [isPySpace, Bool.or_eq_true, beq_iff_eq] at h
  rcases h with ((((h | h) | h) | h) | h) | h <;> subst h <;> decide

/-- A whitespace-only character list lowercases to a whitespace-only list. -/
theorem lowerList_isPySpace (s : List Char) (hs : ∀ c ∈ s, isPySpace c = true) :
    ∀ c ∈ lowerList s, isPySpace c = true := by
  intro c hc
  simp only [lowerList, List.mem_map] at hc
  obtain ⟨d, hd, rfl⟩ := hc
  rw [toLower_isPySpace d (hs d hd)]
  exact hs d hd

/-- Splitting a whitespace-only list yields no tokens. -/
theorem pySplit_isPySpace (s : List Char) (hs : ∀ c ∈ s, isPySpace c = true) :
    pySplit s = [] := by
  unfold pySplit
  induction s with
  | nil => rfl
  | cons c rest ih =>
    have hc : isPySpace c = true := hs c (List.mem_cons_self c rest)
    simp only [pySplitGo, hc, if_true, List.isEmpty_nil]
    exact ih fun d hd => hs d (List.mem_cons_of_mem c hd)

/-- A pattern whose first character is not whitespace never matches inside a
whitespace-only list. -/
theorem countScan_isPySpace (p : List Char) (hne : p ≠ [])
    (hph : isPySpace (p.headD ' ') = false) (prev : Bool) (skip : Nat)
    (s : List Char) (hs : ∀ c ∈ s, isPySpace c = true) :
    countScan p prev skip s = 0 := by
  obtain ⟨ph, pt, rfl⟩ : ∃ ph pt, p = ph :: pt := by
    cases p with
    | nil => exact absurd rfl hne
    | cons x xs => exact ⟨x, xs, rfl⟩
  simp only [List.headD_cons] at hph
  induction s generalizing prev skip with
  | nil => cases skip <;> rfl
  | cons c rest ih =>
    have hc : isPySpace c = true := hs c (List.mem_cons_self c rest)
    have hrest : ∀ d ∈ rest, isPySpace d = true :=
      fun d hd => hs d (List.mem_cons_of_mem c hd)
    have hne2 : (ph == c) = false := by
      refine beq_eq_false_iff_ne.mpr fun hcontra => ?_
      rw [hcontra] at hph
      rw [hc] at hph
      exact Bool.true_eq_false.mp hph
    cases skip with
    | succ k => exact ih _ _ hrest
    | zero =>
      simp only [countScan, matchesHere, hne2, Bool.false_and, Bool.and_false, if_false,
        Bool.false_eq_true, if_neg]
      exact ih _ _ hrest

/-- The filler count of a whitespace-only text is zero. -/
theorem countFillers_isPySpace (s : List Char) (hs : ∀ c ∈ s, isPySpace c = true) :
    countFillers s = 0 := by
  have hprops : ∀ f ∈ fillerWords,
      f.toList ≠ [] ∧ isPySpace (f.toList.headD ' ') = false := by decide
  unfold countFillers
  refine List.sum_eq_zero ?_
  intro x hx
  simp only [List.mem_map] at hx
  obtain ⟨f, hf, rfl⟩ := hx
  obtain ⟨h1, h2⟩ := hprops f hf
  exact countScan_isPySpace f.toList h1 h2 false 0 s hs

/-- A needle whose first character is not whitespace is not contained in a
whitespace-only list. -/
theorem containsSub_isPySpace (n : List Char) (hne : n ≠ [])
    (hh : isPySpace (n.headD ' ') = false) (s : List Char)
    (hs : ∀ c ∈ s, isPySpace c = true) :
    containsSub n s = false := by
  obtain ⟨nh, nt, rfl⟩ : ∃ nh nt, n = nh :: nt := by
    cases n with
    | nil => exact absurd rfl hne
    | cons x xs => exact ⟨x, xs, rfl⟩
  simp only [List.headD_cons] at hh
  induction s with
  | nil => rfl
  | cons c rest ih =>
    have hc : isPySpace c = true := hs c (List.mem_cons_self c rest)
    have hne2 : (nh == c) = false := by
      refine beq_eq_false_iff_ne.mpr fun hcontra => ?_
      rw [hcontra, hc] at hh
      exact Bool.true_eq_false.mp hh
    simp only [containsSub, leadsWith, hne2, Bool.false_and, Bool.false_or]
    exact ih fun d hd => hs d (List.mem_cons_of_mem c hd)

/-- A whitespace-only text is never flagged off-topic. -/
theorem isOffTopic_isPySpace (s : List Char) (hs : ∀ c ∈ s, isPySpace c = true) :
    isOffTopic s = false := by
  have hprops : ∀ n ∈ offTopicIndicators,
      n ≠ [] ∧ isPySpace (n.headD ' ') = false := by decide
  unfold isOffTopic
  rw [List.any_eq_false]
  intro n hn
  obtain ⟨h1, h2⟩ := hprops n hn
  rw [containsSub_isPySpace n h1 h2 s hs]
  exact Bool.false_ne_true

/-- Scanning for the filler `like` through the seven characters of
`dislike` counts nothing, whatever follows: the occurrence of `like`
inside `dislike` is preceded by the word character `s`, so the leading
word boundary fails. -/
theorem countScan_like_dislike (prev : Bool) (b : List Char) :
    countScan "like".toList prev 0 ("dislike".toList ++ b)
      = countScan "like".toList true 0 b := by
  cases prev <;> rfl

/-- When neither rambling nor the off-topic flag is set and the filler
ratio is zero, no persona branch interrupts. -/
theorem interruptDecision_quiet (a : RealtimeAnalyzer) (dur : ℚ) :
    interruptDecision a false false 0 dur = (false, "") := by
  have h3 : ¬((0.3 : ℚ) < 0) := by norm_num
  have h4 : ¬((0.4 : ℚ) < 0) := by norm_num
  have h5 : ¬((0.5 : ℚ) < 0) := by norm_num
  unfold interruptDecision
  split_ifs <;> simp_all

/-- Any persona id other than `tough` and `friendly` takes the standard
decision branch. -/
theorem interruptDecision_other (id : String) (h1 : id ≠ "tough") (h2 : id ≠ "friendly")
    (θ tol : ℚ) (r o : Bool) (fr dur : ℚ) :
    interruptDecision ⟨id, θ, tol⟩ r o fr dur
      = interruptDecision ⟨"standard", θ, tol⟩ r o fr dur := by
  have e1 : (id == "tough") = false := beq_eq_false_iff_ne.mpr h1
  have e2 : (id == "friendly") = false := beq_eq_false_iff_ne.mpr h2
  unfold interruptDecision
  simp only [e1, e2]
  rfl

/-- Any persona id other than `tough` and `friendly` uses the standard
message table. -/
theorem get_interruption_message_other (id : String) (h1 : id ≠ "tough")
    (h2 : id ≠ "friendly") (θ tol : ℚ) (reason : String) :
    get_interruption_message ⟨id, θ, tol⟩ reason
      = get_interruption_message ⟨"standard", θ, tol⟩ reason := by
  have e1 : (id == "tough") = false := beq_eq_false_iff_ne.mpr h1
  have e2 : (id == "friendly") = false := beq_eq_false_iff_ne.mpr h2
  unfold get_interruption_message
  simp only [e1, e2]
  rfl

/-- The `tough` decision branch (source lines 75-85). -/
theorem interruptDecision_tough (θ tol : ℚ) (r o : Bool) (fr dur : ℚ) :
    interruptDecision ⟨"tough", θ, tol⟩ r o fr dur
      = (if r then (true, "Response too long")
         else if (0.3 : ℚ) < fr then (true, "Too many filler words")
         else if o then (true, "Going off-topic")
         else (false, "")) := rfl

/-- The `friendly` decision branch (source lines 86-93). -/
theorem interruptDecision_friendly (θ tol : ℚ) (r o : Bool) (fr dur : ℚ) :
    interruptDecision ⟨"friendly", θ, tol⟩ r o fr dur
      = (if r && decide (θ * 1.5 < dur) then (true, "Response getting long")
         else if (0.5 : ℚ) < fr then (true, "Many filler words")
         else (false, "")) := rfl

/-- The standard decision branch (source lines 94-101). -/
theorem interruptDecision_standard (θ tol : ℚ) (r o : Bool) (fr dur : ℚ) :
    interruptDecision ⟨"standard", θ, tol⟩ r o fr dur
      = (if r then (true, "Response too long")
         else if (0.4 : ℚ) < fr then (true, "Too many filler words")
         else (false, "")) := rfl

/-- The decision pair flags an interruption exactly when it carries a
non-empty reason. -/
theorem interruptDecision_fst_iff_snd (a : RealtimeAnalyzer) (r o : Bool) (fr dur : ℚ) :
    ((interruptDecision a r o fr dur).1 = true
      ↔ (interruptDecision a r o fr dur).2 ≠ "") := by
  unfold interruptDecision
  split_ifs <;> decide

/-- First component of a two-way decision pair. -/
theorem fst_if_decide {P : Prop} [Decidable P] (s : String) :
    (if P then ((true : Bool), s) else ((false : Bool), "")).1 = decide P := by
  by_cases h : P <;> simp [h]

/-! Claim theorems. -/

/-- C1: for every transcript, duration and persona, `analyze_transcript`
sets `is_rambling` exactly when the whitespace-token word count exceeds
100 or the duration strictly exceeds the persona's interruption
threshold; at duration equal to the threshold with word count at most
100, `is_rambling` is false. -/
theorem C1_rambling_boundary (a : RealtimeAnalyzer) (t : String) (d : ℚ) :
    (analyze_transcript a t d).is_rambling
      = (decide (100 < wordCount t.toList) || decide (a.interruption_threshold < d))
    ∧ (wordCount t.toList ≤ 100 →
        (analyze_transcript a t a.interruption_threshold).is_rambling = false) := by
  constructor
  · rfl
  · intro h
    show ramblingFlag a t a.interruption_threshold = false
    unfold ramblingFlag
    rw [decide_eq_false (not_lt.mpr h), decide_eq_false (lt_irrefl a.interruption_threshold)]
    rfl

/-- Witness for C1 at a concrete persona, text and boundary duration. -/
theorem C1_rambling_boundary_witness :
    wordCount "hello there".toList ≤ 100
    ∧ (analyze_transcript ⟨"standard", 120, 1⟩ "hello there" 120).is_rambling = false :=
  ⟨by decide, (C1_rambling_boundary ⟨"standard", 120, 1⟩ "hello there" 120).2 (by decide)⟩

/-- C7: every persona id other than `tough` and `friendly` (unknown ids
included) gets exactly the standard analysis and the standard
interruption messages; both functions are total, so nothing can be
raised. -/
theorem C7_unknown_persona_standard (id : String) (h1 : id ≠ "tough")
    (h2 : id ≠ "friendly") (θ tol : ℚ) (t : String) (d : ℚ) (reason : String) :
    analyze_transcript ⟨id, θ, tol⟩ t d = analyze_transcript ⟨"standard", θ, tol⟩ t d
    ∧ get_interruption_message ⟨id, θ, tol⟩ reason
        = get_interruption_message ⟨"standard", θ, tol⟩ reason := by
  refine ⟨?_, get_interruption_message_other id h1 h2 θ tol reason⟩
  unfold analyze_transcript
  rw [interruptDecision_other id h1 h2 θ tol]
  rfl

/-- Witness for C7 at the `technical` persona. -/
theorem C7_unknown_persona_standard_witness :
    analyze_transcript ⟨"technical", 120, 1⟩ "hello" 10
      = analyze_transcript ⟨"standard", 120, 1⟩ "hello" 10
    ∧ get_interruption_message ⟨"technical", 120, 1⟩ "Response too long"
        = get_interruption_message ⟨"standard", 120, 1⟩ "Response too long" :=
  C7_unknown_persona_standard "technical" (by decide) (by decide) 120 1 "hello" 10
    "Response too long"

/-- C8: the interruption decision is independent of the configured
`fillerWordTolerance`: two analyzers differing only in that field return
identical results on every input. -/
theorem C8_tolerance_not_consumed (id : String) (θ tol tol' : ℚ) (t : String) (d : ℚ) :
    analyze_transcript ⟨id, θ, tol⟩ t d = analyze_transcript ⟨id, θ, tol'⟩ t d := rfl

/-- C10: `should_interrupt` is true exactly when `interruption_reason` is a
non-empty string, for every result `analyze_transcript` returns. -/
theorem C10_interrupt_iff_nonempty_reason (a : RealtimeAnalyzer) (t : String) (d : ℚ) :
    ((analyze_transcript a t d).should_interrupt = true
      ↔ (analyze_transcript a t d).interruption_reason ≠ "") :=
  interruptDecision_fst_iff_snd a (ramblingFlag a t d)
    (isOffTopic (lowerList t.toList)) (fillerRatio t.toList) d

/-- C2: on input that is neither rambling nor off-topic, the three persona
policies interrupt exactly on filler ratio above their own threshold —
`tough` above 0.3, `standard` above 0.4, `friendly` above 0.5 — so a
`friendly` interruption implies a `standard` one, which implies a
`tough` one. -/
theorem C2_persona_strictness_order (θ tol : ℚ) (t : String) (d : ℚ)
    (hr : (analyze_transcript ⟨"standard", θ, tol⟩ t d).is_rambling = false)
    (ho : (analyze_transcript ⟨"standard", θ, tol⟩ t d).is_off_topic = false) :
    ((analyze_transcript ⟨"tough", θ, tol⟩ t d).should_interrupt
        = decide ((0.3 : ℚ) < fillerRatio t.toList))
    ∧ ((analyze_transcript ⟨"standard", θ, tol⟩ t d).should_interrupt
        = decide ((0.4 : ℚ) < fillerRatio t.toList))
    ∧ ((analyze_transcript ⟨"friendly", θ, tol⟩ t d).should_interrupt
        = decide ((0.5 : ℚ) < fillerRatio t.toList))
    ∧ ((analyze_transcript ⟨"friendly", θ, tol⟩ t d).should_interrupt = true →
        (analyze_transcript ⟨"standard", θ, tol⟩ t d).should_interrupt = true)
    ∧ ((analyze_transcript ⟨"standard", θ, tol⟩ t d).should_interrupt = true →
        (analyze_transcript ⟨"tough", θ, tol⟩ t d).should_interrupt = true) := by
  have hrt : ramblingFlag ⟨"tough", θ, tol⟩ t d = false := hr
  have hrf : ramblingFlag ⟨"friendly", θ, tol⟩ t d = false := hr
  have hrs : ramblingFlag ⟨"standard", θ, tol⟩ t d = false := hr
  have hot : isOffTopic (lowerList t.toList) = false := ho
  have htough : (analyze_transcript ⟨"tough", θ, tol⟩ t d).should_interrupt
      = decide ((0.3 : ℚ) < fillerRatio t.toList) := by
    show (interruptDecision ⟨"tough", θ, tol⟩ (ramblingFlag ⟨"tough", θ, tol⟩ t d)
      (isOffTopic (lowerList t.toList)) (fillerRatio t.toList) d).1 = _
    rw [hrt, hot, interruptDecision_tough]
    simp only [Bool.false_eq_true, if_false]
    exact fst_if_decide _
  have hstd : (analyze_transcript ⟨"standard", θ, tol⟩ t d).should_interrupt
      = decide ((0.4 : ℚ) < fillerRatio t.toList) := by
    show (interruptDecision ⟨"standard", θ, tol⟩ (ramblingFlag ⟨"standard", θ, tol⟩ t d)
      (isOffTopic (lowerList t.toList)) (fillerRatio t.toList) d).1 = _
    rw [hrs, interruptDecision_standard]
    simp only [Bool.false_eq_true, if_false]
    exact fst_if_decide _
  have hfri : (analyze_transcript ⟨"friendly", θ, tol⟩ t d).should_interrupt
      = decide ((0.5 : ℚ) < fillerRatio t.toList) := by
    show (interruptDecision ⟨"friendly", θ, tol⟩ (ramblingFlag ⟨"friendly", θ, tol⟩ t d)
      (isOffTopic (lowerList t.toList)) (fillerRatio t.toList) d).1 = _
    rw [hrf, interruptDecision_friendly]
    simp only [Bool.false_and, Bool.false_eq_true, if_false]
    exact fst_if_decide _
  refine ⟨htough, hstd, hfri, ?_, ?_⟩
  · intro h
    rw [hfri] at h
    rw [hstd]
    have h5 : (0.5 : ℚ) < fillerRatio t.toList := of_decide_eq_true h
    exact decide_eq_true (lt_trans (by norm_num) h5)
  · intro h
    rw [hstd] at h
    rw [htough]
    have h4 : (0.4 : ℚ) < fillerRatio t.toList := of_decide_eq_true h
    exact decide_eq_true (lt_trans (by norm_num) h4)

/-- Witness for C2 at a concrete non-rambling, on-topic input. -/
theorem C2_persona_strictness_order_witness :
    (analyze_transcript ⟨"standard", 120, 1⟩ "um well hi" 10).is_rambling = false
    ∧ (analyze_transcript ⟨"standard", 120, 1⟩ "um well hi" 10).is_off_topic = false
    ∧ (analyze_transcript ⟨"standard", 120, 1⟩ "um well hi" 10).should_interrupt
        = decide ((0.4 : ℚ) < fillerRatio ("um well hi".toList)) :=
  ⟨by decide, by decide,
    (C2_persona_strictness_order 120 1 "um well hi" 10 (by decide) (by decide)).2.1⟩

/-- C3: the `friendly` persona never interrupts with the off-topic reason;
the off-topic flag is still computed and reported, and `should_interrupt`
holds exactly on the rambling branch (rambling and duration above 1.5
times the threshold) or the filler branch (ratio above 0.5). -/
theorem C3_friendly_no_off_topic_interrupt (θ tol : ℚ) (t : String) (d : ℚ) :
    (analyze_transcript ⟨"friendly", θ, tol⟩ t d).interruption_reason ≠ "Going off-topic"
    ∧ (analyze_transcript ⟨"friendly", θ, tol⟩ t d).is_off_topic
        = isOffTopic (lowerList t.toList)
    ∧ (analyze_transcript ⟨"friendly", θ, tol⟩ t d).should_interrupt
        = ((analyze_transcript ⟨"friendly", θ, tol⟩ t d).is_rambling
            && decide (θ * 1.5 < d)
          || decide ((0.5 : ℚ) < fillerRatio t.toList)) := by
  refine ⟨?_, rfl, ?_⟩
  · show (interruptDecision ⟨"friendly", θ, tol⟩ (ramblingFlag ⟨"friendly", θ, tol⟩ t d)
      (isOffTopic (lowerList t.toList)) (fillerRatio t.toList) d).2 ≠ "Going off-topic"
    rw [interruptDecision_friendly]
    split_ifs <;> decide
  · show (interruptDecision ⟨"friendly", θ, tol⟩ (ramblingFlag ⟨"friendly", θ, tol⟩ t d)
      (isOffTopic (lowerList t.toList)) (fillerRatio t.toList) d).1
        = (ramblingFlag ⟨"friendly", θ, tol⟩ t d && decide (θ * 1.5 < d)
          || decide ((0.5 : ℚ) < fillerRatio t.toList))
    rw [interruptDecision_friendly]
    cases hb : (ramblingFlag ⟨"friendly", θ, tol⟩ t d && decide (θ * 1.5 < d)) with
    | true => simp
    | false =>
      simp only [Bool.false_or, Bool.false_eq_true, if_false]
      exact fst_if_decide _

/-- C4: filler counting is case-insensitive (it depends only on the
lowercased text) and whole-word: scanning `like` through `dislike`
contributes nothing wherever the text continues, `like` alone in a text is
counted once, the list has the fixed 20 terms, and the stored count is a
non-negative integer. -/
theorem C4_filler_counting_word_boundaries (a : RealtimeAnalyzer) (d : ℚ) (t u : String)
    (h : lowerList t.toList = lowerList u.toList) :
    (analyze_transcript a t d).filler_word_count
        = (analyze_transcript a u d).filler_word_count
    ∧ (∀ (prev : Bool) (b : List Char),
        countScan "like".toList prev 0 ("dislike".toList ++ b)
          = countScan "like".toList true 0 b)
    ∧ countOccurrences "like".toList (lowerList "They dislike it".toList) = 0
    ∧ countOccurrences "like".toList (lowerList "They like it".toList) = 1
    ∧ "like" ∈ fillerWords ∧ fillerWords.length = 20
    ∧ 0 ≤ (analyze_transcript a t d).filler_word_count := by
  refine ⟨?_, countScan_like_dislike, by decide, by decide, by decide, by decide, ?_⟩
  · show (countFillers (lowerList t.toList) : ℤ) = (countFillers (lowerList u.toList) : ℤ)
    rw [h]
  · show (0 : ℤ) ≤ (countFillers (lowerList t.toList) : ℤ)
    exact Int.natCast_nonneg _

/-- Witness for C4 at two texts equal up to letter case. -/
theorem C4_filler_counting_word_boundaries_witness :
    lowerList "They LIKE it".toList = lowerList "they like it".toList
    ∧ (analyze_transcript ⟨"standard", 120, 1⟩ "They LIKE it" 10).filler_word_count
        = (analyze_transcript ⟨"standard", 120, 1⟩ "they like it" 10).filler_word_count :=
  ⟨by decide,
    (C4_filler_counting_word_boundaries ⟨"standard", 120, 1⟩ 10 "They LIKE it"
      "they like it" (by decide)).1⟩

/-- C5 counterexample: on empty text with duration 121 above the standard
threshold 120, the code reports rambling and interrupts, refuting the
claim's "for every duration". -/
theorem C5_counterexample_long_duration :
    (analyze_transcript ⟨"standard", 120, 1⟩ "" 121).is_rambling = true
    ∧ (analyze_transcript ⟨"standard", 120, 1⟩ "" 121).should_interrupt = true := by
  constructor <;> decide

/-- C5 (amended): for every persona and every duration not exceeding the
persona's interruption threshold, an empty or whitespace-only text yields
`filler_word_count = 0`, `is_rambling = false` and
`should_interrupt = false`, and the ratio denominator `max(word_count, 1)`
is 1, so no division by zero occurs. -/
theorem C5_amended_whitespace_quiet (a : RealtimeAnalyzer) (d : ℚ) (t : String)
    (hw : t.toList.all isPySpace = true) (hd : d ≤ a.interruption_threshold) :
    (analyze_transcript a t d).filler_word_count = 0
    ∧ (analyze_transcript a t d).is_rambling = false
    ∧ (analyze_transcript a t d).should_interrupt = false
    ∧ max (wordCount (lowerList t.toList)) 1 = 1 := by
  have hall : ∀ c ∈ t.toList, isPySpace c = true := fun c hc => List.all_eq_true.mp hw c hc
  have hlow : ∀ c ∈ lowerList t.toList, isPySpace c = true := lowerList_isPySpace _ hall
  have hwc : wordCount t.toList = 0 := by
    unfold wordCount; rw [pySplit_isPySpace _ hall]; rfl
  have hwcl : wordCount (lowerList t.toList) = 0 := by
    unfold wordCount; rw [pySplit_isPySpace _ hlow]; rfl
  have hcf : countFillers (lowerList t.toList) = 0 := countFillers_isPySpace _ hlow
  have hot : isOffTopic (lowerList t.toList) = false := isOffTopic_isPySpace _ hlow
  have hfr : fillerRatio t.toList = 0 := by
    unfold fillerRatio; rw [hcf]; simp
  have hrf : ramblingFlag a t d = false := by
    unfold ramblingFlag
    rw [hwc, decide_eq_false (not_lt.mpr hd)]
    rfl
  refine ⟨?_, hrf, ?_, ?_⟩
  · show (countFillers (lowerList t.toList) : ℤ) = 0
    rw [hcf]; rfl
  · show (interruptDecision a (ramblingFlag a t d) (isOffTopic (lowerList t.toList))
      (fillerRatio t.toList) d).1 = false
    rw [hrf, hot, hfr, interruptDecision_quiet]
  · rw [hwcl]
    simp

/-- Witness for the amended C5 at a whitespace-only text. -/
theorem C5_amended_whitespace_quiet_witness :
    (" ".toList.all isPySpace = true ∧ (10 : ℚ) ≤ 120)
    ∧ (analyze_transcript ⟨"standard", 120, 1⟩ " " 10).should_interrupt = false :=
  ⟨⟨by decide, by decide⟩,
    (C5_amended_whitespace_quiet ⟨"standard", 120, 1⟩ 10 " " (by decide)
      (by decide)).2.2.1⟩

/-- C6 counterexample: a negative duration is not clamped — the result
carries `response_duration = -1`, not the claimed 0. -/
theorem C6_counterexample_no_clamp :
    (analyze_transcript ⟨"standard", 120, 1⟩ "hi" (-1)).response_duration = -1
    ∧ ((-1 : ℚ) ≠ 0) :=
  ⟨rfl, by decide⟩

/-- C6 (amended): `analyze_transcript` passes the duration through
unchanged into `response_duration` (even when negative), and for a
non-positive duration with a non-negative threshold the duration term
never triggers rambling, which can then only come from the word count. -/
theorem C6_amended_nonpositive_duration (a : RealtimeAnalyzer) (t : String) (d : ℚ)
    (hd : d ≤ 0) (hθ : 0 ≤ a.interruption_threshold) :
    (analyze_transcript a t d).response_duration = d
    ∧ (analyze_transcript a t d).is_rambling = decide (100 < wordCount t.toList) := by
  refine ⟨rfl, ?_⟩
  show ramblingFlag a t d = _
  unfold ramblingFlag
  rw [decide_eq_false (not_lt.mpr (hd.trans hθ)), Bool.or_false]

/-- Witness for the amended C6 at duration `-1`. -/
theorem C6_amended_nonpositive_duration_witness :
    ((-1 : ℚ) ≤ 0 ∧ (0 : ℚ) ≤ 120)
    ∧ (analyze_transcript ⟨"standard", 120, 1⟩ "hi" (-1)).response_duration = -1 :=
  ⟨⟨by decide, by decide⟩,
    (C6_amended_nonpositive_duration ⟨"standard", 120, 1⟩ "hi" (-1) (by decide)
      (by decide)).1⟩

/-- C9: from a fresh session, speaking updates buffer the cumulative
transcript, and the speech-end update two seconds after the start appends
exactly one history record with text `hello world` and duration 2,
returns that record's analysis, and resets the buffer; any further
not-speaking update while idle is a no-op returning no result. -/
theorem C9_session_lifecycle (a : RealtimeAnalyzer) (t0 t1 : ℚ) :
    (update_response_tracking a
        (update_response_tracking a
          (update_response_tracking a ⟨none, "", []⟩ "hello" true t0).1
          "hello world" true t1).1
        "" false (t0 + 2))
      = (⟨none, "",
          [⟨"hello world", 2, analyze_transcript a "hello world" 2, t0 + 2⟩]⟩,
         some (analyze_transcript a "hello world" 2))
    ∧ ∀ (h : List ResponseRecord) (tr : String) (t2 : ℚ),
        update_response_tracking a ⟨none, "", h⟩ tr false t2 = (⟨none, "", h⟩, none) := by
  constructor
  · have h2 : t0 + 2 - t0 = (2 : ℚ) := add_sub_cancel_left t0 2
    show ((⟨none, "",
        [⟨"hello world", t0 + 2 - t0, analyze_transcript a "hello world" (t0 + 2 - t0),
          t0 + 2⟩]⟩ : TrackingState),
       some (analyze_transcript a "hello world" (t0 + 2 - t0)))
      = ((⟨none, "",
          [⟨"hello world", 2, analyze_transcript a "hello world" 2, t0 + 2⟩]⟩ : TrackingState),
         some (analyze_transcript a "hello world" 2))
    rw [h2]
  · intro h tr t2
    rfl

end DebateApp
